import Mathlib

/-!
Verification of the YouTube political-study harvester (`src/youtube_scraper.py`)
against its natural-language specification.

The scraper's data model and operations are shallowly embedded below.  External
providers (the metadata API, the transcript API, the comment downloader) are
modelled as a `Provider` structure of response functions: a raw provider call
either raises (`Except.error`) or returns its payload; the embedded scraper
functions contain the source's `try`/`except` handling.  The two on-disk caches
are modelled as a `Caches` structure mapping a channel handle to the load
outcome of its cache file (`none` = file absent, `some (Except.error _)` =
file present but load raised, `some (Except.ok v)` = load succeeded).
Network-call counting instruments each provider invocation, mirroring the
API requests made by the source.
-/

namespace YTScraper

/-- A comment as normalised by `get_video_comments` (lines 219-228 of
`youtube_scraper.py`): every field populated, missing raw keys defaulted
to the empty string. -/
structure Comment where
  cid : String
  text : String
  time : String
  author : String
  channel : String
  votes : String
  replies : String
  photo : String
deriving DecidableEq

/-- A raw comment as yielded by the comment downloader's generator: any key
may be missing (`comment.get(key, '')` in the source). -/
structure RawComment where
  cid : Option String
  text : Option String
  time : Option String
  author : Option String
  channel : Option String
  votes : Option String
  replies : Option String
  photo : Option String
deriving DecidableEq

/-- Field-by-field normalisation performed in the comment loop
(lines 219-228): each `comment.get(k, '')`. -/
def normalizeComment (c : RawComment) : Comment :=
  { cid := c.cid.getD ""
    text := c.text.getD ""
    time := c.time.getD ""
    author := c.author.getD ""
    channel := c.channel.getD ""
    votes := c.votes.getD ""
    replies := c.replies.getD ""
    photo := c.photo.getD "" }

/-- One item of a transcript list as returned by the transcript API
(only its `text` field is consumed, line 188). -/
structure TranscriptItem where
  text : String
deriving DecidableEq

/-- `snippet` part of a `videos().list` response item. -/
structure VideoSnippet where
  channelId : String
  title : String
  description : String
  publishedAt : String
deriving DecidableEq

/-- `contentDetails` part of a `videos().list` response item. -/
structure VideoContentDetails where
  duration : String
deriving DecidableEq

/-- `statistics` part of a `videos().list` response item; the source reads
each count with `.get(key, 0)`, so each may be missing. -/
structure VideoStatistics where
  viewCount : Option Nat
  likeCount : Option Nat
  commentCount : Option Nat
deriving DecidableEq

/-- A `videos().list` response item (line 164-170). -/
structure VideoMetadata where
  snippet : VideoSnippet
  contentDetails : VideoContentDetails
  statistics : VideoStatistics
deriving DecidableEq

/-- `relatedPlaylists` of a `channels().list` response item. -/
structure ChannelRelatedPlaylists where
  uploads : String
deriving DecidableEq

/-- `contentDetails` of a `channels().list` response item. -/
structure ChannelContentDetails where
  relatedPlaylists : ChannelRelatedPlaylists
deriving DecidableEq

/-- A `channels().list` response item (lines 101-112). -/
structure ChannelItem where
  contentDetails : ChannelContentDetails
deriving DecidableEq

/-- A playlist item ("video stub") as stored in the discovery cache.
Line 311 of the source reads the id from `contentDetails.videoId` when
present and falls back to the `video_id` key. -/
structure VideoStub where
  contentDetailsVideoId : Option String
  videoIdKey : Option String
deriving DecidableEq

/-- Video-id extraction of line 311:
`video['contentDetails']['videoId'] if ... else video.get('video_id')`. -/
def stubVideoId (v : VideoStub) : Option String :=
  match v.contentDetailsVideoId with
  | some s => some s
  | none => v.videoIdKey

/-- The fully assembled per-video record built at lines 327-341.  All fields
are always populated; `transcript` is optional data (`None` in the source is
a valid terminal value). -/
structure VideoRecord where
  channel_handle : String
  channel_id : String
  video_id : Option String
  title : String
  description : String
  published_at : String
  duration : String
  view_count : Nat
  like_count : Nat
  comment_count : Nat
  transcript : Option String
  comments : List Comment
  processed_at : String
deriving DecidableEq

/-- The external providers.  Each function models one raw provider call:
`Except.error` is a raised exception at the call site, `Except.ok` the
payload.  `playlistItemsAll` is the provider's complete emission order for a
playlist; a paged `playlistItems().list` request with `maxResults = k` serves
the next `k` of these items and reports a continuation token exactly when
items remain (the API contract that `maxResults` caps a page). -/
structure Provider where
  channelsListByHandle : String → Except Unit (List ChannelItem)
  channelsListById : Option String → Except Unit (List ChannelItem)
  playlistItemsAll : String → List VideoStub
  videosList : Option String → Except Unit (List VideoMetadata)
  transcriptApi : Option String → Except Unit (List TranscriptItem)
  commentStream : Option String → List RawComment

/-- On-disk cache state per channel handle.  `processed` models
`{handle}_videos.pkl` and `discovery` models `{handle}_videos_list.json`:
`none` = file absent, `some (Except.error _)` = file exists but loading it
raised, `some (Except.ok v)` = load succeeded with contents `v`. -/
structure Caches where
  processed : String → Option (Except Unit (List VideoRecord))
  discovery : String → Option (Except Unit (List VideoStub))

/-- `YouTubeScraper.get_channel_upload_playlist` (lines 87-116): choose the
by-handle or by-id request, return the first item's uploads playlist, and
convert any raised error to `None`. -/
def get_channel_upload_playlist (p : Provider) (channel_handle : String)
    (channel_id : Option String) (by_handle : Bool) : Option String :=
  match (if by_handle then p.channelsListByHandle channel_handle
         else p.channelsListById channel_id) with
  | Except.error _ => none
  | Except.ok items =>
      items.head?.map fun it => it.contentDetails.relatedPlaylists.uploads

/-- Loop body of `YouTubeScraper.get_playlist_videos` (lines 129-151):
`while len(videos) < max_results`, request a page of size
`min(50, max_results - len(videos))`, extend, stop when no continuation
token.  `allItems` is the provider's remaining emission; the pair's second
component counts page requests (network calls).  The source's expressions
are inlined (no `let`) to keep the recursion transparent. -/
def get_playlist_videos_aux (allItems : List VideoStub) (max_results : Nat)
    (acc : List VideoStub) (pages : Nat) : List VideoStub × Nat :=
  if _h : acc.length < max_results then
    if _h2 : allItems.drop (min 50 (max_results - acc.length)) = [] then
      (acc ++ allItems.take (min 50 (max_results - acc.length)), pages + 1)
    else
      get_playlist_videos_aux (allItems.drop (min 50 (max_results - acc.length)))
        max_results (acc ++ allItems.take (min 50 (max_results - acc.length)))
        (pages + 1)
  else (acc, pages)
termination_by allItems.length
decreasing_by
  have hpos : 0 < (allItems.drop (min 50 (max_results - acc.length))).length :=
    List.length_pos.mpr _h2
  rw [List.length_drop] at hpos
  have hmin : 1 ≤ min 50 (max_results - acc.length) := by omega
  rw [List.length_drop]
  omega

/-- `YouTubeScraper.get_playlist_videos` (lines 118-151), returning the
collected stub list. -/
def get_playlist_videos (p : Provider) (playlist_id : String)
    (max_results : Nat) : List VideoStub :=
  (get_playlist_videos_aux (p.playlistItemsAll playlist_id) max_results [] 0).1

/-- `YouTubeScraper.get_video_details` (lines 153-174): first response item,
errors converted to `None`. -/
def get_video_details (p : Provider) (video_id : Option String) :
    Option VideoMetadata :=
  match p.videosList video_id with
  | Except.error _ => none
  | Except.ok items => items.head?

/-- `YouTubeScraper.get_video_transcript` (lines 176-192): join the items'
texts with spaces; errors converted to `None`. -/
def get_video_transcript (p : Provider) (video_id : Option String) :
    Option String :=
  match p.transcriptApi video_id with
  | Except.error _ => none
  | Except.ok items => some (String.intercalate " " (items.map TranscriptItem.text))

/-- `YouTubeScraper.get_video_comments` (lines 194-237): pull at most
`max_comments` comments from the lazy stream (`itertools.islice`, line 217)
and normalise each. -/
def get_video_comments (p : Provider) (video_id : Option String)
    (max_comments : Nat) : List Comment :=
  ((p.commentStream video_id).take max_comments).map normalizeComment

/-- Enrichment of one stub (lines 311-341): extract the video id, fetch
details (failure skips the video, line 316-317), then transcript and
comments, and assemble the record.  `now` stands for
`datetime.now().isoformat()`. -/
def enrichOne (p : Provider) (channel_handle : String) (max_comments : Nat)
    (now : String) (stub : VideoStub) : Option VideoRecord :=
  match get_video_details p (stubVideoId stub) with
  | none => none
  | some details =>
      some
        { channel_handle := channel_handle
          channel_id := details.snippet.channelId
          video_id := stubVideoId stub
          title := details.snippet.title
          description := details.snippet.description
          published_at := details.snippet.publishedAt
          duration := details.contentDetails.duration
          view_count := details.statistics.viewCount.getD 0
          like_count := details.statistics.likeCount.getD 0
          comment_count := details.statistics.commentCount.getD 0
          transcript := get_video_transcript p (stubVideoId stub)
          comments := get_video_comments p (stubVideoId stub) max_comments
          processed_at := now }

/-- Observable outcome of the per-video loop: the channel's accumulated
records, the sequence of checkpoint writes to the processed cache (each the
list dumped at lines 348-349), and the number of provider calls made. -/
structure EnrichResult where
  records : List VideoRecord
  checkpoints : List (List VideoRecord)
  calls : Nat
deriving DecidableEq

/-- The per-video loop of `fetch_and_process_channel_videos`
(lines 310-355).  `j` is the 0-based loop index, `total` is `len(videos)`,
`acc` is `channel_videos_data` so far.  A failed details fetch costs one
provider call and skips the video (`continue`); a successful video costs
three calls (details, transcript, comments) and checkpoints when
`(j + 1) % batch == 0 or (j + 1) == total` (line 346; the source's literal
batch is 50, kept as the parameter `batch`). -/
def enrich_videos_aux (p : Provider) (channel_handle : String)
    (max_comments batch total : Nat) (now : String) :
    Nat → List VideoStub → List VideoRecord → EnrichResult
  | _, [], acc => { records := acc, checkpoints := [], calls := 0 }
  | j, stub :: rest, acc =>
    match enrichOne p channel_handle max_comments now stub with
    | none =>
        let r := enrich_videos_aux p channel_handle max_comments batch total now
          (j + 1) rest acc
        { records := r.records, checkpoints := r.checkpoints, calls := r.calls + 1 }
    | some record =>
        let r := enrich_videos_aux p channel_handle max_comments batch total now
          (j + 1) rest (acc ++ [record])
        { records := r.records
          checkpoints :=
            (if (j + 1) % batch == 0 || (j + 1) == total then [acc ++ [record]]
             else []) ++ r.checkpoints
          calls := r.calls + 3 }

/-- The whole per-video loop for a channel's stub list. -/
def enrich_videos (p : Provider) (channel_handle : String)
    (max_comments batch : Nat) (now : String) (stubs : List VideoStub) :
    EnrichResult :=
  enrich_videos_aux p channel_handle max_comments batch stubs.length now 0 stubs []

/-- Observable outcome of processing one channel: the records contributed to
`all_videos_data`, the number of provider (network) calls made for this
channel, the processed-cache checkpoint writes, and the discovery-cache
write if one happened. -/
structure ChannelResult where
  records : List VideoRecord
  calls : Nat
  checkpoints : List (List VideoRecord)
  discoverySave : Option (List VideoStub)
deriving DecidableEq

/-- The per-channel harvest path of `fetch_and_process_channel_videos`
(lines 277-357), entered when there is no usable processed-cache entry:
resolve the uploads playlist (one call; failure skips the channel), prefer
a cached discovery list, otherwise paginate and save it, then run the
per-video loop with the source's checkpoint batch of 50. -/
def harvest_channel (p : Provider) (c : Caches) (channel_handle : String)
    (channel_id : Option String) (by_handle : Bool)
    (max_videos max_comments : Nat) (now : String) : ChannelResult :=
  match get_channel_upload_playlist p channel_handle channel_id by_handle with
  | none => { records := [], calls := 1, checkpoints := [], discoverySave := none }
  | some playlist_id =>
      match c.discovery channel_handle with
      | some (Except.ok videos) =>
          let e := enrich_videos p channel_handle max_comments 50 now videos
          { records := e.records, calls := 1 + e.calls
            checkpoints := e.checkpoints, discoverySave := none }
      | _ =>
          let vp := get_playlist_videos_aux (p.playlistItemsAll playlist_id)
            max_videos [] 0
          let e := enrich_videos p channel_handle max_comments 50 now vp.1
          { records := e.records, calls := 1 + vp.2 + e.calls
            checkpoints := e.checkpoints, discoverySave := some vp.1 }

/-- One iteration of the channel loop (lines 259-357): a loadable
processed-cache entry short-circuits the channel (lines 266-273, `continue`
after `all_videos_data.extend(cached_data)`); a missing entry, or one whose
load raises (lines 274-275), falls through to the harvest path. -/
def process_channel (p : Provider) (c : Caches) (channel_handle : String)
    (channel_id : Option String) (by_handle : Bool)
    (max_videos max_comments : Nat) (now : String) : ChannelResult :=
  match c.processed channel_handle with
  | some (Except.ok cached) =>
      { records := cached, calls := 0, checkpoints := [], discoverySave := none }
  | _ => harvest_channel p c channel_handle channel_id by_handle
      max_videos max_comments now

/-- Guarded indexing into the optional `channel_ids` list (line 278):
`channel_ids[i] if channel_ids and i < len(channel_ids) else None`
(an absent or empty list, or an out-of-range index, yields `None`). -/
def channel_id_at (channel_ids : Option (List String)) (i : Nat) : Option String :=
  match channel_ids with
  | none => none
  | some ids => if h : i < ids.length then some ids[i] else none

/-- `YouTubeScraper.fetch_and_process_channel_videos` (lines 239-359),
decomposed per channel: channel `i` is processed with the guarded
explicit id. -/
def fetch_and_process_channel_videos (p : Provider) (c : Caches)
    (channel_handles : List String) (channel_ids : Option (List String))
    (by_handle : Bool) (max_videos max_comments : Nat) (now : String) :
    List ChannelResult :=
  channel_handles.enum.map fun ih =>
    process_channel p c ih.2 (channel_id_at channel_ids ih.1) by_handle
      max_videos max_comments now

/-- The flat `all_videos_data` list returned by
`fetch_and_process_channel_videos` (lines 257, 272, 357, 359). -/
def all_videos_data (p : Provider) (c : Caches)
    (channel_handles : List String) (channel_ids : Option (List String))
    (by_handle : Bool) (max_videos max_comments : Nat) (now : String) :
    List VideoRecord :=
  (fetch_and_process_channel_videos p c channel_handles channel_ids by_handle
    max_videos max_comments now).flatMap ChannelResult.records

/-- One row of the video-level CSV (lines 382-396). -/
structure VideoRow where
  channel_handle : String
  channel_id : String
  video_id : Option String
  title : String
  description : String
  published_at : String
  duration : String
  view_count : Nat
  like_count : Nat
  comment_count : Nat
  transcript : Option String
  comments_count : Nat
  processed_at : String
deriving DecidableEq

/-- One row of the comment-level CSV (lines 408-418); note `photo` is not
exported. -/
structure CommentRow where
  video_id : Option String
  channel_handle : String
  comment_id : String
  comment_text : String
  comment_time : String
  comment_author : String
  comment_channel : String
  comment_votes : String
  comment_replies : String
deriving DecidableEq

/-- Flattening of one record into its CSV row (lines 382-396). -/
def videoRow (v : VideoRecord) : VideoRow :=
  { channel_handle := v.channel_handle
    channel_id := v.channel_id
    video_id := v.video_id
    title := v.title
    description := v.description
    published_at := v.published_at
    duration := v.duration
    view_count := v.view_count
    like_count := v.like_count
    comment_count := v.comment_count
    transcript := v.transcript
    comments_count := v.comments.length
    processed_at := v.processed_at }

/-- The comment rows contributed by one record (lines 406-419). -/
def commentRowsOf (v : VideoRecord) : List CommentRow :=
  v.comments.map fun cm =>
    { video_id := v.video_id
      channel_handle := v.channel_handle
      comment_id := cm.cid
      comment_text := cm.text
      comment_time := cm.time
      comment_author := cm.author
      comment_channel := cm.channel
      comment_votes := cm.votes
      comment_replies := cm.replies }

/-- The files written by one `save_data` run: filename plus row content for
the JSON snapshot, the video-level CSV and the comment-level CSV. -/
structure ExportResult where
  jsonFile : Option (String × List VideoRecord)
  csvFile : Option (String × List VideoRow)
  commentsCsvFile : Option (String × List CommentRow)
deriving DecidableEq

/-- `YouTubeScraper.save_data` (lines 361-424).  `output_format` is the raw
string tested with `in ['json', 'both']` / `in ['csv', 'both']`;
`timestamp` is `datetime.now().strftime(...)`, used only in filenames. -/
def save_data (videos_data : List VideoRecord) (output_format : String)
    (timestamp : String) : ExportResult :=
  { jsonFile :=
      if output_format == "json" || output_format == "both" then
        some (s!"youtube_data_{timestamp}.json", videos_data)
      else none
    csvFile :=
      if output_format == "csv" || output_format == "both" then
        some (s!"youtube_data_{timestamp}.csv", videos_data.map videoRow)
      else none
    commentsCsvFile :=
      if output_format == "csv" || output_format == "both" then
        some (s!"youtube_comments_{timestamp}.csv",
          videos_data.flatMap commentRowsOf)
      else none }

/-- Row content of an export, forgetting the timestamped filenames. -/
def export_rows (e : ExportResult) :
    Option (List VideoRecord) × Option (List VideoRow) × Option (List CommentRow) :=
  (e.jsonFile.map Prod.snd, e.csvFile.map Prod.snd, e.commentsCsvFile.map Prod.snd)

/-- `config.py`: the configured channel handles. -/
def YOUTUBERS : List String := ["@HasanAbi", "@joerogan"]

/-- `config.py`: `MAX_VIDEOS_PER_CHANNEL = 4000`. -/
def MAX_VIDEOS_PER_CHANNEL : Nat := 4000

/-- `config.py`: `MAX_COMMENTS_PER_VIDEO = 200`. -/
def MAX_COMMENTS_PER_VIDEO : Nat := 200

/-- `config.py`: `OUTPUT_FORMAT = 'both'`. -/
def OUTPUT_FORMAT : String := "both"

/-- `main` (lines 427-449): a missing `H_YOUTUBE_API_KEY` aborts the run
before any component executes (lines 430-433); otherwise the harvest runs
over the configured channels (with no explicit channel ids) and the data is
exported.  `none` is the aborted run. -/
def main_run (api_key : Option String) (p : Provider) (c : Caches)
    (now timestamp : String) : Option (List VideoRecord × ExportResult) :=
  match api_key with
  | none => none
  | some _ =>
      let data := all_videos_data p c YOUTUBERS none true
        MAX_VIDEOS_PER_CHANNEL MAX_COMMENTS_PER_VIDEO now
      some (data, save_data data OUTPUT_FORMAT timestamp)

/-! ### Concrete fixtures used by witness instantiations -/

/-- Stub carrying its id under `contentDetails.videoId`. -/
def demoStub (v : String) : VideoStub :=
  { contentDetailsVideoId := some v, videoIdKey := none }

/-- Metadata the demo provider serves for video `v`. -/
def demoMeta (v : String) : VideoMetadata :=
  { snippet :=
      { channelId := "UC1", title := "t" ++ v, description := "d"
        publishedAt := "2024-01-01T00:00:00Z" }
    contentDetails := { duration := "PT1M" }
    statistics := { viewCount := some 10, likeCount := none, commentCount := some 2 } }

/-- A raw comment with some keys missing. -/
def demoRawComment : RawComment :=
  { cid := some "c1", text := some "hello", time := none, author := some "a"
    channel := none, votes := some "1", replies := none, photo := none }

/-- A provider on which every video lookup succeeds, transcripts are
unavailable, and each video has a three-comment stream. -/
def demoProvider : Provider :=
  { channelsListByHandle := fun _ =>
      Except.ok [{ contentDetails := { relatedPlaylists := { uploads := "PL1" } } }]
    channelsListById := fun _ => Except.error ()
    playlistItemsAll := fun _ => [demoStub "v1", demoStub "v2"]
    videosList := fun v =>
      match v with
      | some s => Except.ok [demoMeta s]
      | none => Except.error ()
    transcriptApi := fun _ => Except.error ()
    commentStream := fun _ => [demoRawComment, demoRawComment, demoRawComment] }

/-- Like `demoProvider` but the metadata fetch for video `v2` raises. -/
def gapProvider : Provider :=
  { demoProvider with
    videosList := fun v =>
      if v = some "v2" then Except.error ()
      else match v with
        | some s => Except.ok [demoMeta s]
        | none => Except.error () }

/-- A record as cached on disk for the cache-hit fixture. -/
def demoCachedRecord : VideoRecord :=
  { channel_handle := "@demo", channel_id := "UC1", video_id := some "v0"
    title := "t0", description := "d", published_at := "2023-01-01T00:00:00Z"
    duration := "PT2M", view_count := 5, like_count := 1, comment_count := 0
    transcript := none, comments := [], processed_at := "2023-06-01" }

/-- Caches with a loadable processed entry for every channel. -/
def hitCaches : Caches :=
  { processed := fun _ => some (Except.ok [demoCachedRecord])
    discovery := fun _ => none }

/-- Caches whose processed entry exists but fails to load. -/
def corruptCaches : Caches :=
  { processed := fun _ => some (Except.error ())
    discovery := fun _ => none }

/-- Caches with no entries at all. -/
def emptyCaches : Caches :=
  { processed := fun _ => none, discovery := fun _ => none }

/-- Caches with a loadable three-stub discovery list and no processed entry. -/
def discoveryCaches : Caches :=
  { processed := fun _ => none
    discovery := fun _ =>
      some (Except.ok [demoStub "v1", demoStub "v2", demoStub "v3"]) }

/-- `demoRawComment` after normalisation. -/
def demoComment : Comment :=
  { cid := "c1", text := "hello", time := "", author := "a", channel := ""
    votes := "1", replies := "", photo := "" }

/-- The record `enrichOne` assembles for video `v` on `gapProvider` (and on
`demoProvider`) with `max_comments = 2`, handle `"@demo"` and clock
`"now"`. -/
def gapRecord (v : String) : VideoRecord :=
  { channel_handle := "@demo", channel_id := "UC1", video_id := some v
    title := "t" ++ v, description := "d"
    published_at := "2024-01-01T00:00:00Z", duration := "PT1M"
    view_count := 10, like_count := 0, comment_count := 2
    transcript := none, comments := [demoComment, demoComment]
    processed_at := "now" }

/-- Five stubs for the checkpoint scenario. -/
def stubs5 : List VideoStub :=
  [demoStub "v1", demoStub "v2", demoStub "v3", demoStub "v4", demoStub "v5"]

/-! ### Helper lemmas about the per-video loop -/

/-- The per-video loop only ever appends to the accumulated
`channel_videos_data`: its final records are the initial accumulator
followed by one record per stub whose details fetch succeeded, in stub
order. -/
theorem enrich_videos_aux_records (p : Provider) (h : String)
    (mC B tot : Nat) (now : String) :
    ∀ (stubs : List VideoStub) (j : Nat) (acc : List VideoRecord),
      (enrich_videos_aux p h mC B tot now j stubs acc).records =
        acc ++ stubs.filterMap (enrichOne p h mC now) := by
  intro stubs
  induction stubs with
  | nil => intro j acc; simp [enrich_videos_aux]
  | cons s rest ih =>
      intro j acc
      rw [List.filterMap_cons]
      cases hf : enrichOne p h mC now s with
      | none => simp [enrich_videos_aux, hf, ih]
      | some r => simp [enrich_videos_aux, hf, ih]

/-- Each checkpointed list is an initial segment (a `take`) of the loop's
final record list: the processed cache is only ever written a prefix of the
fully assembled records. -/
theorem enrich_videos_aux_checkpoint_take (p : Provider) (h : String)
    (mC B tot : Nat) (now : String) :
    ∀ (stubs : List VideoStub) (j : Nat) (acc : List VideoRecord),
      ∀ cp ∈ (enrich_videos_aux p h mC B tot now j stubs acc).checkpoints,
        ∃ n, cp = (enrich_videos_aux p h mC B tot now j stubs acc).records.take n := by
  intro stubs
  induction stubs with
  | nil => intro j acc cp hcp; simp [enrich_videos_aux] at hcp
  | cons s rest ih =>
      intro j acc cp hcp
      cases hf : enrichOne p h mC now s with
      | none =>
          simp only [enrich_videos_aux, hf] at hcp ⊢
          exact ih (j + 1) acc cp hcp
      | some r =>
          simp only [enrich_videos_aux, hf, List.mem_append] at hcp
          rcases hcp with hcp | hcp
          · refine ⟨(acc ++ [r]).length, ?_⟩
            have hmem : cp = acc ++ [r] := by
              cases hc : ((j + 1) % B == 0 || (j + 1) == tot) with
              | true => rw [hc] at hcp; simpa using hcp
              | false => rw [hc] at hcp; simp at hcp
            rw [hmem]
            rw [enrich_videos_aux_records, List.filterMap_cons, hf]
            have : acc ++ r :: rest.filterMap (enrichOne p h mC now) =
                (acc ++ [r]) ++ rest.filterMap (enrichOne p h mC now) := by simp
            rw [this, List.take_left]
          · obtain ⟨n, hn⟩ := ih (j + 1) (acc ++ [r]) cp hcp
            refine ⟨n, ?_⟩
            rw [hn]
            rw [enrich_videos_aux_records, enrich_videos_aux_records,
              List.filterMap_cons, hf]
            simp

/-- When every details fetch succeeds, the loop checkpoints exactly at the
1-based positions `n` with `n % batch == 0` or `n == total`, each write being
the records accumulated so far. -/
theorem enrich_videos_aux_checkpoints_success (p : Provider) (h : String)
    (mC B tot : Nat) (now : String) :
    ∀ (stubs : List VideoStub) (j : Nat) (acc : List VideoRecord),
      (∀ s ∈ stubs, (enrichOne p h mC now s).isSome) →
      (enrich_videos_aux p h mC B tot now j stubs acc).checkpoints =
        (List.range stubs.length).filterMap fun m =>
          if (j + m + 1) % B == 0 || (j + m + 1) == tot then
            some ((acc ++ stubs.filterMap (enrichOne p h mC now)).take
              (acc.length + m + 1))
          else none := by
  intro stubs
  induction stubs with
  | nil => intro j acc _; simp [enrich_videos_aux]
  | cons s rest ih =>
      intro j acc hsucc
      obtain ⟨r, hf⟩ := Option.isSome_iff_exists.mp (hsucc s (by simp))
      have hrest : ∀ t ∈ rest, (enrichOne p h mC now t).isSome := fun t ht =>
        hsucc t (by simp [ht])
      have hstep : (enrich_videos_aux p h mC B tot now j (s :: rest) acc).checkpoints =
          (if (j + 1) % B == 0 || (j + 1) == tot then [acc ++ [r]] else []) ++
            (enrich_videos_aux p h mC B tot now (j + 1) rest (acc ++ [r])).checkpoints := by
        simp [enrich_videos_aux, hf]
      have hassoc : acc ++ (s :: rest).filterMap (enrichOne p h mC now) =
          (acc ++ [r]) ++ rest.filterMap (enrichOne p h mC now) := by
        rw [List.filterMap_cons, hf]; simp
      have htail : (enrich_videos_aux p h mC B tot now (j + 1) rest (acc ++ [r])).checkpoints =
          (List.range rest.length).filterMap fun m =>
            if (j + (m + 1) + 1) % B == 0 || (j + (m + 1) + 1) == tot then
              some ((acc ++ (s :: rest).filterMap (enrichOne p h mC now)).take
                (acc.length + (m + 1) + 1))
            else none := by
        rw [ih (j + 1) (acc ++ [r]) hrest]
        apply List.filterMap_congr
        intro m _
        have e1 : j + 1 + m + 1 = j + (m + 1) + 1 := by omega
        have e2 : (acc ++ [r]).length + m + 1 = acc.length + (m + 1) + 1 := by
          simp; omega
        rw [e1, e2, hassoc]
      have htake : (acc ++ (s :: rest).filterMap (enrichOne p h mC now)).take
          (acc.length + 1) = acc ++ [r] := by
        rw [hassoc]
        have hl : acc.length + 1 = (acc ++ [r]).length := by simp
        rw [hl, List.take_left]
      rw [hstep, htail, hassoc]
      rw [hassoc] at htake
      rw [List.length_cons, List.range_succ_eq_map, List.filterMap_cons,
        List.filterMap_map]
      cases hc : ((j + 1) % B == 0 || (j + 1) == tot) with
      | true =>
          have hc0 : ((j + 0 + 1) % B == 0 || (j + 0 + 1) == tot) = true := by
            simpa using hc
          simp only [hc, hc0, if_true, Nat.add_zero, htake, Function.comp,
            List.singleton_append]
          rfl
      | false =>
          have hc0 : ((j + 0 + 1) % B == 0 || (j + 0 + 1) == tot) = false := by
            simpa using hc
          simp only [hc, hc0, Function.comp, Nat.add_zero, Bool.false_eq_true,
            if_false, List.nil_append]
          rfl

/-! ### Helper lemmas about the pagination loop -/

/-- The pagination loop never accumulates past `max_results`: each page
request is capped at `max_results - len(videos)`. -/
theorem get_playlist_videos_aux_length_le :
    ∀ (allItems : List VideoStub) (max_results : Nat) (acc : List VideoStub)
      (pages : Nat), acc.length ≤ max_results →
      (get_playlist_videos_aux allItems max_results acc pages).1.length ≤
        max_results := by
  intro allItems max_results acc pages hacc
  induction allItems, max_results, acc, pages using get_playlist_videos_aux.induct with
  | case1 allItems max_results acc pages h h2 =>
      rw [get_playlist_videos_aux, dif_pos h, dif_pos h2]
      simp [List.length_take]
      omega
  | case2 allItems max_results acc pages h h2 ih =>
      rw [get_playlist_videos_aux, dif_pos h, dif_neg h2]
      apply ih
      simp [List.length_take]
      omega
  | case3 allItems max_results acc pages h =>
      rw [get_playlist_videos_aux, dif_neg h]
      exact hacc

/-- When the provider's whole emission fits strictly under the target, the
loop drains it completely: the pages concatenate to exactly the emission, in
order, and the loop stops at the missing continuation token. -/
theorem get_playlist_videos_aux_all :
    ∀ (allItems : List VideoStub) (max_results : Nat) (acc : List VideoStub)
      (pages : Nat), acc.length + allItems.length < max_results →
      (get_playlist_videos_aux allItems max_results acc pages).1 =
        acc ++ allItems := by
  intro allItems max_results acc pages hlt
  induction allItems, max_results, acc, pages using get_playlist_videos_aux.induct with
  | case1 allItems max_results acc pages h h2 =>
      rw [get_playlist_videos_aux, dif_pos h, dif_pos h2]
      have hle : allItems.length ≤ min 50 (max_results - acc.length) := by
        have := congrArg List.length h2
        rw [List.length_drop] at this
        simp at this
        omega
      rw [List.take_of_length_le hle]
  | case2 allItems max_results acc pages h h2 ih =>
      rw [get_playlist_videos_aux, dif_pos h, dif_neg h2]
      rw [ih ?_]
      · rw [List.append_assoc, List.take_append_drop]
      · simp [List.length_take, List.length_drop]
        omega
  | case3 allItems max_results acc pages h =>
      exact absurd (by omega : acc.length < max_results) h

/-! ### Inversion lemmas for the per-video assembly -/

/-- A record produced by `enrichOne` carries exactly the extracted id, the
transcript outcome and the capped comment list of its stub. -/
theorem enrichOne_fields (p : Provider) (h : String) (mc : Nat) (now : String)
    (s : VideoStub) (r : VideoRecord)
    (hr : enrichOne p h mc now s = some r) :
    r.video_id = stubVideoId s ∧
    r.transcript = get_video_transcript p (stubVideoId s) ∧
    r.comments = get_video_comments p (stubVideoId s) mc := by
  unfold enrichOne at hr
  cases hd : get_video_details p (stubVideoId s) with
  | none => rw [hd] at hr; exact absurd hr (by simp)
  | some d =>
      rw [hd] at hr
      simp only [Option.some.injEq] at hr
      rw [← hr]
      exact ⟨rfl, rfl, rfl⟩

/-- A successful details fetch always produces a record: transcript or
comment outcomes never cause a skip. -/
theorem enrichOne_isSome_of_details (p : Provider) (h : String) (mc : Nat)
    (now : String) (s : VideoStub) (d : VideoMetadata)
    (hd : get_video_details p (stubVideoId s) = some d) :
    (enrichOne p h mc now s).isSome := by
  simp [enrichOne, hd]

/-! ### The claims -/

/-- Claim C1: for every channel whose processed-cache entry exists and loads
successfully, re-running the harvest yields for that channel exactly the
cached record sequence, performs zero network calls and skips the entire
per-video enrichment loop (no checkpoint writes, no discovery write); if the
entry exists but fails to load, the channel is re-harvested instead. -/
theorem processed_cache_short_circuit (p : Provider) (c : Caches)
    (channel_handle : String) (channel_id : Option String) (by_handle : Bool)
    (max_videos max_comments : Nat) (now : String) :
    (∀ cached, c.processed channel_handle = some (Except.ok cached) →
      process_channel p c channel_handle channel_id by_handle max_videos
          max_comments now =
        { records := cached, calls := 0, checkpoints := [], discoverySave := none }) ∧
    (∀ e, c.processed channel_handle = some (Except.error e) →
      process_channel p c channel_handle channel_id by_handle max_videos
          max_comments now =
        harvest_channel p c channel_handle channel_id by_handle max_videos
          max_comments now) := by
  constructor
  · intro cached hc
    simp [process_channel, hc]
  · intro e hc
    simp [process_channel, hc]

/-- Witness for C1 at a concrete cache state: a loadable entry is returned
verbatim with zero calls, and a corrupt entry falls through to the harvest
path. -/
theorem processed_cache_short_circuit_witness :
    (hitCaches.processed "@demo" = some (Except.ok [demoCachedRecord]) ∧
      process_channel demoProvider hitCaches "@demo" none true 100 2 "now" =
        { records := [demoCachedRecord], calls := 0, checkpoints := []
          discoverySave := none }) ∧
    (corruptCaches.processed "@demo" = some (Except.error ()) ∧
      process_channel demoProvider corruptCaches "@demo" none true 100 2 "now" =
        harvest_channel demoProvider corruptCaches "@demo" none true 100 2 "now") :=
  ⟨⟨rfl, (processed_cache_short_circuit demoProvider hitCaches "@demo" none true
      100 2 "now").1 [demoCachedRecord] rfl⟩,
   ⟨rfl, (processed_cache_short_circuit demoProvider corruptCaches "@demo" none
      true 100 2 "now").2 () rfl⟩⟩

/-- Claim C2: for every page fetcher and target count, the pagination
collector returns an ordered sequence of length at most the target; for a
provider offering only `M < N` items in total, it returns exactly those `M`
items in order and terminates without error. -/
theorem pagination_bound_and_exhaustion (p : Provider) (playlist_id : String)
    (targetCount : Nat) :
    (get_playlist_videos p playlist_id targetCount).length ≤ targetCount ∧
    ((p.playlistItemsAll playlist_id).length < targetCount →
      get_playlist_videos p playlist_id targetCount =
        p.playlistItemsAll playlist_id) := by
  constructor
  · exact get_playlist_videos_aux_length_le _ _ [] 0 (by simp)
  · intro hM
    have hall := get_playlist_videos_aux_all (p.playlistItemsAll playlist_id)
      targetCount [] 0 (by simpa using hM)
    simpa [get_playlist_videos] using hall

/-- Witness for C2: the demo provider offers 2 items; requesting 5 returns
exactly those 2. -/
theorem pagination_bound_and_exhaustion_witness :
    (demoProvider.playlistItemsAll "PL1").length < 5 ∧
    get_playlist_videos demoProvider "PL1" 5 = [demoStub "v1", demoStub "v2"] :=
  ⟨by decide, by
    rw [(pagination_bound_and_exhaustion demoProvider "PL1" 5).2 (by decide)]
    decide⟩

/-- Claim C3: during enrichment with `V` stubs and checkpoint batch size
`B` (the source instantiates `B = 50`), when every stub enriches
successfully a checkpoint of the accumulated result set occurs exactly at
the 1-based positions `n` with `n % B = 0` or `n = V`, each write being the
first `n` records; with `B = 2` and `V = 5` this is 3 writes, after videos
2, 4 and 5. -/
theorem checkpoint_positions (p : Provider) (channel_handle : String)
    (max_comments B : Nat) (now : String) (stubs : List VideoStub)
    (hsucc : ∀ s ∈ stubs, (enrichOne p channel_handle max_comments now s).isSome) :
    (enrich_videos p channel_handle max_comments B now stubs).checkpoints =
      (List.range stubs.length).filterMap fun m =>
        if (m + 1) % B == 0 || (m + 1) == stubs.length then
          some ((enrich_videos p channel_handle max_comments B now
            stubs).records.take (m + 1))
        else none := by
  rw [enrich_videos, enrich_videos_aux_checkpoints_success p channel_handle
    max_comments B stubs.length now stubs 0 [] hsucc]
  apply List.filterMap_congr
  intro m _
  have e1 : 0 + m + 1 = m + 1 := by omega
  rw [e1, enrich_videos_aux_records]
  simp

/-- Witness for C3: with batch size 2 and 5 all-successful stubs there are
exactly 3 checkpoint writes, holding 2, 4 and 5 records respectively. -/
theorem checkpoint_positions_witness :
    (stubs5.all fun s => (enrichOne demoProvider "@demo" 2 "now" s).isSome) = true ∧
    (enrich_videos demoProvider "@demo" 2 2 "now" stubs5).checkpoints.length = 3 ∧
    (enrich_videos demoProvider "@demo" 2 2 "now" stubs5).checkpoints.map
      List.length = [2, 4, 5] := by
  refine ⟨by decide, ?_, ?_⟩ <;>
    rw [checkpoint_positions demoProvider "@demo" 2 2 "now" stubs5
      (by decide)] <;> decide

/-- Claim C4: with 3 stubs where the metadata fetch fails for stub 2 only,
the channel's final result sequence contains exactly the records for stubs
1 and 3, in the original listing order (the failed stub is skipped, not a
run-level error). -/
theorem metadata_gap_skips_video (p : Provider) (channel_handle : String)
    (max_comments B : Nat) (now : String) (s1 s2 s3 : VideoStub)
    (r1 r3 : VideoRecord)
    (h1 : enrichOne p channel_handle max_comments now s1 = some r1)
    (h2 : enrichOne p channel_handle max_comments now s2 = none)
    (h3 : enrichOne p channel_handle max_comments now s3 = some r3) :
    (enrich_videos p channel_handle max_comments B now [s1, s2, s3]).records =
      [r1, r3] := by
  rw [enrich_videos, enrich_videos_aux_records]
  simp [List.filterMap_cons, h1, h2, h3]

/-- Witness for C4 on a provider whose metadata call raises exactly for
video `v2`. -/
theorem metadata_gap_skips_video_witness :
    enrichOne gapProvider "@demo" 2 "now" (demoStub "v2") = none ∧
    (enrich_videos gapProvider "@demo" 2 50 "now"
      [demoStub "v1", demoStub "v2", demoStub "v3"]).records =
      [gapRecord "v1", gapRecord "v3"] :=
  ⟨by decide,
    metadata_gap_skips_video gapProvider "@demo" 2 50 "now" _ _ _ _ _
      (by decide) (by decide) (by decide)⟩

/-- Claim C5: every list written to the processed cache is an initial
segment of the final, fully assembled record list (never a partially
assembled record), and a video whose details fetch succeeds always yields a
record — with its transcript field set to the transcript outcome, which may
be an explicit `none`, and its comments capped — rather than being
skipped. -/
theorem checkpoint_records_fully_assembled (p : Provider)
    (channel_handle : String) (max_comments B : Nat) (now : String)
    (stubs : List VideoStub) :
    (∀ cp ∈ (enrich_videos p channel_handle max_comments B now stubs).checkpoints,
      ∃ n, cp = (enrich_videos p channel_handle max_comments B now
        stubs).records.take n) ∧
    (∀ s ∈ stubs, ∀ d, get_video_details p (stubVideoId s) = some d →
      ∃ r, r ∈ (enrich_videos p channel_handle max_comments B now stubs).records ∧
        r.video_id = stubVideoId s ∧
        r.transcript = get_video_transcript p (stubVideoId s) ∧
        r.comments = get_video_comments p (stubVideoId s) max_comments) := by
  constructor
  · intro cp hcp
    exact enrich_videos_aux_checkpoint_take p channel_handle max_comments B
      stubs.length now stubs 0 [] cp hcp
  · intro s hs d hd
    obtain ⟨r, hr⟩ := Option.isSome_iff_exists.mp
      (enrichOne_isSome_of_details p channel_handle max_comments now s d hd)
    obtain ⟨hv, ht, hcm⟩ := enrichOne_fields p channel_handle max_comments now s r hr
    refine ⟨r, ?_, hv, ht, hcm⟩
    rw [enrich_videos, enrich_videos_aux_records]
    simp only [List.nil_append]
    exact List.mem_filterMap.mpr ⟨s, hs, hr⟩

/-- Witness for C5: on a provider with no transcripts, a video with
successful details yields a record whose transcript field is an explicit
`none` (the video is not skipped). -/
theorem checkpoint_records_fully_assembled_witness :
    get_video_details demoProvider (stubVideoId (demoStub "v1")) =
      some (demoMeta "v1") ∧
    ((enrich_videos demoProvider "@demo" 2 50 "now" [demoStub "v1"]).records.any
      fun r => r.video_id == some "v1" && r.transcript == none) = true := by
  refine ⟨by decide, ?_⟩
  obtain ⟨r, hmem, hv, ht, _⟩ :=
    (checkpoint_records_fully_assembled demoProvider "@demo" 2 50 "now"
      [demoStub "v1"]).2 (demoStub "v1") (by decide) (demoMeta "v1") (by decide)
  refine List.any_eq_true.mpr ⟨r, hmem, ?_⟩
  rw [hv, ht]
  decide

/-- Claim C6: every successfully enriched record stores at most
`max_comments` comments, whatever the provider's stream offers; a stream of
at least `max_comments` comments is truncated to exactly `max_comments`. -/
theorem comment_cap (p : Provider) (channel_handle : String)
    (max_comments B : Nat) (now : String) (stubs : List VideoStub) :
    (∀ r ∈ (enrich_videos p channel_handle max_comments B now stubs).records,
      r.comments.length ≤ max_comments) ∧
    (∀ video_id, max_comments ≤ (p.commentStream video_id).length →
      (get_video_comments p video_id max_comments).length = max_comments) := by
  constructor
  · intro r hr
    rw [enrich_videos, enrich_videos_aux_records] at hr
    simp only [List.nil_append] at hr
    obtain ⟨s, _, hs⟩ := List.mem_filterMap.mp hr
    obtain ⟨_, _, hcm⟩ := enrichOne_fields p channel_handle max_comments now s r hs
    rw [hcm]
    simp [get_video_comments, List.length_take]
  · intro vid hlen
    simp [get_video_comments, List.length_take]
    omega

/-- Witness for C6: a three-comment stream with a cap of 2 yields a record
holding exactly 2 comments. -/
theorem comment_cap_witness :
    gapRecord "v1" ∈ (enrich_videos demoProvider "@demo" 2 50 "now"
      [demoStub "v1"]).records ∧
    (gapRecord "v1").comments.length ≤ 2 ∧
    (demoProvider.commentStream (some "v1")).length = 3 :=
  ⟨by rw [enrich_videos, enrich_videos_aux_records]; decide,
   (comment_cap demoProvider "@demo" 2 50 "now" [demoStub "v1"]).1 (gapRecord "v1")
     (by rw [enrich_videos, enrich_videos_aux_records]; decide),
   by decide⟩

/-- Claim C7: for every pattern of per-video or per-channel provider
failures and every cache state, the overall run completes; the only fatal,
run-aborting condition is a missing API credential, checked at startup
before any component executes. -/
theorem run_total_unless_missing_key (api_key : Option String) (p : Provider)
    (c : Caches) (now timestamp : String) :
    (main_run api_key p c now timestamp).isSome = api_key.isSome := by
  cases api_key <;> rfl

/-- Claim C8: the exporter is a deterministic pure function of its input
record sequence — exporting the same record set twice produces snapshots
with identical row content, the timestamp entering only the filenames. -/
theorem export_rows_deterministic (videos_data : List VideoRecord)
    (output_format : String) (t1 t2 : String) :
    export_rows (save_data videos_data output_format t1) =
      export_rows (save_data videos_data output_format t2) := by
  unfold export_rows save_data
  cases h1 : (output_format == "json" || output_format == "both") <;>
    cases h2 : (output_format == "csv" || output_format == "both") <;>
      simp [h1, h2]

/-- Claim C9: when a channel's discovery cache loads successfully, the
enrichment loop processes the cached list itself — the outcome does not
depend on `max_videos_per_channel` (which constrains only fresh
pagination), and the number of records is bounded by the cached list's
length. -/
theorem cached_discovery_ignores_max_videos (p : Provider) (c : Caches)
    (channel_handle : String) (channel_id : Option String) (by_handle : Bool)
    (max_videos max_comments : Nat) (now : String) (playlist_id : String)
    (stubs : List VideoStub)
    (hpl : get_channel_upload_playlist p channel_handle channel_id by_handle =
      some playlist_id)
    (hdisc : c.discovery channel_handle = some (Except.ok stubs)) :
    (harvest_channel p c channel_handle channel_id by_handle max_videos
      max_comments now).records =
      (enrich_videos p channel_handle max_comments 50 now stubs).records ∧
    (harvest_channel p c channel_handle channel_id by_handle max_videos
      max_comments now).records.length ≤ stubs.length := by
  have hrec : (harvest_channel p c channel_handle channel_id by_handle
      max_videos max_comments now).records =
      (enrich_videos p channel_handle max_comments 50 now stubs).records := by
    simp [harvest_channel, hpl, hdisc]
  refine ⟨hrec, ?_⟩
  rw [hrec, enrich_videos, enrich_videos_aux_records]
  simpa using List.length_filterMap_le _ stubs

/-- Witness for C9: a cached discovery list of 3 stubs is fully enriched
even with `max_videos_per_channel = 1`. -/
theorem cached_discovery_ignores_max_videos_witness :
    get_channel_upload_playlist demoProvider "@demo" none true = some "PL1" ∧
    discoveryCaches.discovery "@demo" =
      some (Except.ok [demoStub "v1", demoStub "v2", demoStub "v3"]) ∧
    (harvest_channel demoProvider discoveryCaches "@demo" none true 1 2
      "now").records.length = 3 :=
  ⟨rfl, rfl, by
    rw [(cached_discovery_ignores_max_videos demoProvider discoveryCaches
      "@demo" none true 1 2 "now" "PL1"
      [demoStub "v1", demoStub "v2", demoStub "v3"] rfl rfl).1]
    rw [enrich_videos, enrich_videos_aux_records]
    decide⟩

/-- Claim C10: when `channel_ids` is shorter than `channel_handles` (or
absent), every handle is still processed — the run produces one outcome per
handle — and any index at or beyond the `channel_ids` length yields `None`
as the explicit channel identifier instead of an out-of-bounds failure. -/
theorem channel_ids_index_guarded (p : Provider) (c : Caches)
    (channel_handles : List String) (ids : List String) (by_handle : Bool)
    (max_videos max_comments : Nat) (now : String) :
    (fetch_and_process_channel_videos p c channel_handles (some ids) by_handle
      max_videos max_comments now).length = channel_handles.length ∧
    (∀ i, ids.length ≤ i → channel_id_at (some ids) i = none) := by
  constructor
  · simp [fetch_and_process_channel_videos, List.enum_length]
  · intro i hi
    simp only [channel_id_at]
    rw [dif_neg (by omega)]

/-- Witness for C10: two handles with a single-element id list — both
handles are processed and index 1 resolves to `None`. -/
theorem channel_ids_index_guarded_witness :
    (fetch_and_process_channel_videos demoProvider hitCaches ["@a", "@b"]
      (some ["UCx"]) true 5 2 "now").length = 2 ∧
    channel_id_at (some ["UCx"]) 1 = none :=
  ⟨(channel_ids_index_guarded demoProvider hitCaches ["@a", "@b"] ["UCx"] true
      5 2 "now").1,
   (channel_ids_index_guarded demoProvider hitCaches ["@a", "@b"] ["UCx"] true
      5 2 "now").2 1 (by decide)⟩

end YTScraper
